import Mathlib

/-!
Shallow embedding of the Arcus IPCD python client
(`src/clients/python/src/ipcdclient/client.py`) and proofs about it.

Modelling conventions:
* JSON values are the inductive `Json` below; a python dict literal becomes
  `Json.obj` with the fields in the insertion order of the source literal.
* `json.dumps` becomes `jsonDumps`, reproducing the default python output
  (separators `", "` and `": "`, `ensure_ascii` escaping); numeric payloads
  are modelled as integers.
* The `asyncio.Queue` outbound queue becomes a `List String` whose head is
  the front of the queue; `put_nowait` appends at the end.
* A python attribute that a code path may leave unassigned is an `Option`
  field holding `none`; reading it then raises, modelled as `Except.error`.
* The reader and writer loops of `connect` become explicit recursions over
  the list of inbound, resp. queued, messages.
-/

namespace Ipcd

/-- JSON values as produced by `json.loads` and consumed by `json.dumps`. -/
inductive Json where
  | null : Json
  | bool (b : Bool) : Json
  | num (n : Int) : Json
  | str (s : String) : Json
  | arr (elems : List Json) : Json
  | obj (fields : List (String × Json)) : Json

/-- Hex digit character, lowercase, as python json uses in escapes. -/
def hexDigit (n : Nat) : Char :=
  if n < 10 then Char.ofNat (48 + n) else Char.ofNat (87 + n)

/-- A four-digit unicode escape of the form backslash-u-XXXX. -/
def uEscape (n : Nat) : String :=
  "\\u" ++ String.mk [hexDigit (n / 4096 % 16), hexDigit (n / 256 % 16),
    hexDigit (n / 16 % 16), hexDigit (n % 16)]

/-- Escape of one character inside a JSON string, matching the default
`json.dumps` behaviour (`ensure_ascii`: everything outside `0x20`-`0x7e`
is escaped). -/
def escapeChar (c : Char) : String :=
  if c = '"' then "\\\""
  else if c = '\\' then "\\\\"
  else if c = '\n' then "\\n"
  else if c = '\t' then "\\t"
  else if c = '\r' then "\\r"
  else if c.toNat = 8 then "\\b"
  else if c.toNat = 12 then "\\f"
  else if c.toNat < 32 then uEscape c.toNat
  else if c.toNat < 127 then String.singleton c
  else if c.toNat < 65536 then uEscape c.toNat
  else uEscape (55296 + (c.toNat - 65536) / 1024) ++
       uEscape (56320 + (c.toNat - 65536) % 1024)

/-- Serialization of a JSON string literal, quotes included. -/
def strDumps (s : String) : String :=
  "\"" ++ String.join (s.toList.map escapeChar) ++ "\""

mutual

/-- Serialization of a JSON value exactly as `json.dumps` prints it with the
default separators `", "` and `": "` and dict insertion order kept. -/
def jsonDumps : Json → String
  | .null => "null"
  | .bool b => if b then "true" else "false"
  | .num n => toString n
  | .str s => strDumps s
  | .arr xs => "[" ++ jsonDumpsList xs ++ "]"
  | .obj fs => "\x7b" ++ jsonDumpsFields fs ++ "\x7d"

/-- Comma-separated serialization of the elements of a JSON array. -/
def jsonDumpsList : List Json → String
  | [] => ""
  | [x] => jsonDumps x
  | x :: xs => jsonDumps x ++ ", " ++ jsonDumpsList xs

/-- Comma-separated serialization of the fields of a JSON object. -/
def jsonDumpsFields : List (String × Json) → String
  | [] => ""
  | [(k, v)] => strDumps k ++ ": " ++ jsonDumps v
  | (k, v) :: fs => strDumps k ++ ": " ++ jsonDumps v ++ ", " ++ jsonDumpsFields fs

end

/-- Field access on a JSON object (`message.get(key)` / `message[key]`);
`none` on a missing key or a non-object. -/
def Json.lookup (j : Json) (k : String) : Option Json :=
  match j with
  | .obj fs => fs.lookup k
  | _ => none

/-- The class constant `IpcdClient.IPCD_VERSION = '1.0'`. -/
def IPCD_VERSION : String := "1.0"

/-- Identity of the owning client stored in the device back-reference
`_client` (set by `Device._set_client`); stands for the python object
reference, which cannot be embedded cyclically. -/
structure ClientRef where
  hostname : String
  ipcd_version : String
deriving DecidableEq

/-- The nested class `IpcdClient.Device`. `ipcd_version` is `none` when the
attribute was never assigned (which `Device.__init__` allows, see
`Device.init`); `_client` is `none` until `_set_client` runs. -/
structure Device where
  vendor : String
  model : String
  sn : String
  ipcd_version : Option String
  _client : Option ClientRef
deriving DecidableEq

/-- Truthiness of the optional string argument, as python `if not x` sees
it: `None` and the empty string are falsy. -/
def pyFalsy : Option String → Bool
  | none => true
  | some s => s = ""

/-- The constructor `Device.__init__(self, vendor, model, sn, ipcd_version=None)`.
The source assigns `self.ipcd_version` only inside `if not ipcd_version:`;
when the argument is truthy the attribute stays unassigned (`none`). -/
def Device.init (vendor model sn : String) (ipcd_version : Option String) : Device :=
  { vendor := vendor
    model := model
    sn := sn
    ipcd_version := if pyFalsy ipcd_version then some IPCD_VERSION else none
    _client := none }

/-- The method `Device.to_obj` (line 39): reads `self.ipcd_version`, which
raises `AttributeError` when the attribute was never assigned. -/
def Device.to_obj (d : Device) : Except String Json :=
  match d.ipcd_version with
  | none => .error "AttributeError: ipcd_version"
  | some v => .ok (.obj
      [("ipcdver", .str v), ("vendor", .str d.vendor),
       ("model", .str d.model), ("sn", .str d.sn)])

/-- The method `Device._set_client` (line 49). -/
def Device._set_client (d : Device) (c : ClientRef) : Device :=
  { d with _client := some c }

/-- The helper `_validate_hostname` (line 14): raises
`ValueError("hostname must be set")` when the hostname is falsy. -/
def _validate_hostname (hostname : String) : Except String Unit :=
  if hostname = "" then .error "hostname must be set" else .ok ()

/-- The `IpcdClient` state: `hostname`, `ipcd_version`, the registry
`devices` (insertion order) and the outbound `queue` (front first). The
urllib3 pool and the logger carry no protocol state and are omitted. -/
structure Client where
  hostname : String
  ipcd_version : String
  devices : List Device
  queue : List String
deriving DecidableEq

/-- The back-reference value a device receives from `_set_client(self)`. -/
def clientRef (c : Client) : ClientRef :=
  { hostname := c.hostname, ipcd_version := c.ipcd_version }

/-- The constructor `IpcdClient.__init__` (line 73): validates the hostname
first (before the pool or anything else is touched), then stores it
unchanged with an empty registry and a fresh empty queue. -/
def clientInit (hostname : String) : Except String Client :=
  match _validate_hostname hostname with
  | .error e => .error e
  | .ok _ => .ok
      { hostname := hostname
        ipcd_version := IPCD_VERSION
        devices := []
        queue := [] }

/-- The method `add_device` (line 123): binds the back-reference, then
appends to the registry. -/
def add_device (c : Client) (d : Device) : Client :=
  { c with devices := c.devices ++ [Device._set_client d (clientRef c)] }

/-- The dict built by `on_value_change` (lines 193-202). -/
def on_value_change_data (ver : String) (d : Device) (message : Json) : Json :=
  .obj [("device", .obj
          [("ipcdver", .str ver), ("vendor", .str d.vendor),
           ("model", .str d.model), ("sn", .str d.sn)]),
        ("events", .arr [.str "onValueChanges"]),
        ("valueChanges", message)]

/-- The method `on_value_change` (line 186): builds the dict, serializes it,
and `put_nowait`s the payload on the queue. -/
def on_value_change (c : Client) (d : Device) (message : Json) : Client :=
  { c with queue := c.queue ++ [jsonDumps (on_value_change_data c.ipcd_version d message)] }

/-- The dict built by the effective `report` (lines 215-223; the earlier
HTTP `report` of line 99 is shadowed by this second definition). -/
def report_data (ver : String) (d : Device) (message : Json) : Json :=
  .obj [("device", .obj
          [("ipcdver", .str ver), ("vendor", .str d.vendor),
           ("model", .str d.model), ("sn", .str d.sn)]),
        ("report", message)]

/-- The method `report` (line 208, the definition that is in effect at
runtime): builds the dict, serializes it, and `put_nowait`s the payload. -/
def report (c : Client) (d : Device) (message : Json) : Client :=
  { c with queue := c.queue ++ [jsonDumps (report_data c.ipcd_version d message)] }

/-- The dict built for one device inside the registration for-loop of
`connect_loop` (lines 139-147). -/
def registration_data (ver : String) (d : Device) : Json :=
  .obj [("device", .obj
          [("ipcdver", .str ver), ("vendor", .str d.vendor),
           ("model", .str d.model), ("sn", .str d.sn)]),
        ("events", .arr [.str "onBoot", .str "onConnect"])]

/-- The registration for-loop of `connect_loop` (lines 138-149): one
`await websocket.send(json.dumps(data))` per registered device, in registry
order; each send is awaited before the next starts, and the loop finishes
before the reader and writer tasks are even created. The resulting list is
the sequence of payloads it writes to the socket, in send order. -/
def registration_handshake (c : Client) : List String :=
  c.devices.map (fun d => jsonDumps (registration_data c.ipcd_version d))

/-- The `writer` loop of `connect_loop` (lines 156-159), run on a snapshot
of the queue: repeatedly `get` the front message and `send` it. It is the
only code in the source that consumes the queue. The result is the sequence
of payloads written to the socket, in send order. -/
def writerRun : List String → List String
  | [] => []
  | m :: rest => m :: writerRun rest

/-- Everything one `connect_loop` execution writes to the socket, in order:
the awaited registration for-loop runs to completion first, and only then
are the reader and writer tasks created, so the writer output follows the
whole handshake. -/
def connect_outbound (c : Client) : List String :=
  registration_handshake c ++ writerRun c.queue

/-- Modelled from the spec: the command module `ipcdclient/command.py`
(imported as `from .command import from_payload` on line 9) is not among the
sources. Per the spec (section 4.1) a command is a tagged variant decoded
from an inbound payload; the required minimum is a generic apply
settings/attributes command. -/
inductive Command where
  | setParameterValues (values : List (String × Json))

/-- Modelled from the spec: `from_payload(payload)` decodes a parsed inbound
object into a `Command`, failing with `MalformedCommand` when the
discriminator field is missing or unrecognized (section 4.1; section 6 only
fixes that some discriminator field exists, so the concrete field and
variant names here stand for the wire contract). -/
def from_payload (payload : Json) : Except String Command :=
  match payload.lookup "command" with
  | some (.str "SetParameterValues") =>
      .ok (.setParameterValues
        (match payload.lookup "values" with
         | some (.obj fs) => fs
         | _ => []))
  | _ => .error "MalformedCommand"

/-- Modelled from the spec: `Command.apply(device)` performs the command
against the target device, failing with `UnsupportedCommand` when the
device has no handler for that command kind (section 4.1); the generic
settings command is handled. The device state mutation itself is
caller-defined and outside the session engine, so the model keeps only the
success or failure of the dispatch. -/
def Command.apply (c : Command) (d : Device) : Except String Unit :=
  match c, d with
  | .setParameterValues _, _ => .ok ()

/-- The method `Device.on_message` (line 65): `from_payload(message).apply(self)`.
The `Except` value is the outcome of the fire-and-forget task the reader
spawns for this message; an `error` is what escapes that task (and is
logged by the event loop), never seen by the reader loop itself. -/
def Device.on_message (d : Device) (message : Json) : Except String Unit :=
  match from_payload message with
  | .error e => .error e
  | .ok cmd => cmd.apply d

/-- One iteration of the `reader` loop (lines 151-154) on an already parsed
message: evaluate `self.devices[0]` — `none` when the registry is empty,
where the python list indexing raises `IndexError` and kills the reader —
and otherwise spawn `devices[0].on_message(msg)` as an independent task,
whose eventual outcome is returned but does not influence the loop. -/
def readerStep (devices : List Device) (msg : Json) : Option (Except String Unit) :=
  match devices with
  | [] => none
  | d :: _ => some (Device.on_message d msg)

/-- The `reader` loop (lines 151-154) run over a finite prefix of the
inbound stream, each element already parsed by `json.loads`: per message it
runs `readerStep`; a `none` (the `IndexError` of `devices[0]` on an empty
registry) terminates the loop abnormally, while any spawned task outcome —
success or logged error — leaves the loop reading the next message. -/
def readerRun (devices : List Device) : List Json → Option (List (Except String Unit))
  | [] => some []
  | m :: ms =>
    match readerStep devices m with
    | none => none
    | some r => (readerRun devices ms).map (fun rs => r :: rs)

/-- Value-change envelope exactly as the spec writes it: device identity
with `ipcdver` `"1.0"`, the single-element `events` list, and the caller
payload under `valueChanges`. -/
def specValueChangeEnvelope (V M S : String) (changes : Json) : Json :=
  .obj [("device", .obj
          [("ipcdver", .str "1.0"), ("vendor", .str V),
           ("model", .str M), ("sn", .str S)]),
        ("events", .arr [.str "onValueChanges"]),
        ("valueChanges", changes)]

/-- Generic report envelope exactly as the spec writes it. -/
def specReportEnvelope (V M S : String) (payload : Json) : Json :=
  .obj [("device", .obj
          [("ipcdver", .str "1.0"), ("vendor", .str V),
           ("model", .str M), ("sn", .str S)]),
        ("report", payload)]

/-- Enqueueing operations available to callers while a writer may run. -/
inductive QueueOp where
  | valueChange (d : Device) (msg : Json)
  | deviceReport (d : Device) (msg : Json)

/-- Effect of one caller operation on the client. -/
def applyOp (c : Client) : QueueOp → Client
  | .valueChange d m => on_value_change c d m
  | .deviceReport d m => report c d m

/-- Effect of a sequence of caller operations, first to last. -/
def applyOps (c : Client) (ops : List QueueOp) : Client :=
  ops.foldl applyOp c

/-- The payload an operation enqueues, given the client protocol version. -/
def opMessage (ver : String) : QueueOp → String
  | .valueChange d m => jsonDumps (on_value_change_data ver d m)
  | .deviceReport d m => jsonDumps (report_data ver d m)

/-- The client of the worked example in the spec (section 8). -/
def exClient : Client :=
  { hostname := "wss://example.test", ipcd_version := IPCD_VERSION,
    devices := [], queue := [] }

/-- The device of the worked example in the spec (section 8). -/
def exDevice : Device := Device.init "Acme" "X1" "123" none

/-- The value-change payload of the worked example in the spec. -/
def exChanges : Json := .obj [("temp", .num 72)]

/-- The enqueued envelope of the worked example, written out literally as
the spec prints it. -/
def exEnvelope : Json :=
  .obj [("device", .obj
          [("ipcdver", .str "1.0"), ("vendor", .str "Acme"),
           ("model", .str "X1"), ("sn", .str "123")]),
        ("events", .arr [.str "onValueChanges"]),
        ("valueChanges", .obj [("temp", .num 72)])]

/-- A generic report payload used in witnesses. -/
def exReport : Json := .obj [("status", .str "ok")]

/-- An inbound payload without the command discriminator. -/
def badMsg : Json := .obj [("foo", .num 1)]

/-- A well-formed inbound command payload. -/
def goodMsg : Json :=
  .obj [("command", .str "SetParameterValues"),
        ("values", .obj [("temp", .num 70)])]

/-! ## Helper lemmas (shared) -/

/-- The writer loop forwards a queue snapshot unchanged and in order. -/
theorem writerRun_eq : ∀ l : List String, writerRun l = l
  | [] => rfl
  | m :: rest => by rw [writerRun, writerRun_eq rest]

/-- With a non-empty registry the reader loop never dies: it dispatches
every message to the head device and collects the task outcomes. -/
theorem readerRun_cons_eq (d : Device) (ds : List Device) :
    ∀ msgs : List Json,
      readerRun (d :: ds) msgs = some (msgs.map (fun m => Device.on_message d m))
  | [] => rfl
  | m :: ms => by
      rw [readerRun, readerStep, readerRun_cons_eq d ds ms]
      rfl

/-- One caller operation appends exactly its serialized envelope. -/
theorem applyOp_queue (c : Client) (op : QueueOp) :
    (applyOp c op).queue = c.queue ++ [opMessage c.ipcd_version op] := by
  cases op <;> rfl

/-- Caller operations never change the protocol version. -/
theorem applyOp_version (c : Client) (op : QueueOp) :
    (applyOp c op).ipcd_version = c.ipcd_version := by
  cases op <;> rfl

/-- A sequence of caller operations appends their envelopes in call order. -/
theorem applyOps_queue : ∀ (ops : List QueueOp) (c : Client),
    (applyOps c ops).queue = c.queue ++ ops.map (opMessage c.ipcd_version)
  | [], c => by simp [applyOps]
  | op :: ops, c => by
      have h := applyOps_queue ops (applyOp c op)
      simp only [applyOps, List.foldl] at h ⊢
      rw [h, applyOp_queue, applyOp_version, List.map, List.append_assoc,
        List.singleton_append]

/-! ## Claim theorems -/

/-- C1: for every client with protocol version `"1.0"` and every device,
`on_value_change(device, changes)` serializes and enqueues exactly the
spec envelope `{"device": {"ipcdver": "1.0", vendor, model, sn}, "events":
["onValueChanges"], "valueChanges": changes}`; its `events` field is the
single-element list `["onValueChanges"]`; and on the worked example (vendor
`"Acme"`, model `"X1"`, sn `"123"`, changes `{"temp": 72}`) the built
envelope deep-equals the example envelope of the spec. -/
theorem on_value_change_spec (c : Client) (hver : c.ipcd_version = IPCD_VERSION)
    (d : Device) (changes : Json) :
    (on_value_change c d changes).queue =
      c.queue ++ [jsonDumps (specValueChangeEnvelope d.vendor d.model d.sn changes)] ∧
    Json.lookup (on_value_change_data c.ipcd_version d changes) "events" =
      some (.arr [.str "onValueChanges"]) ∧
    on_value_change_data c.ipcd_version exDevice exChanges = exEnvelope := by
  refine ⟨?_, ?_, ?_⟩
  · show c.queue ++ [jsonDumps (on_value_change_data c.ipcd_version d changes)] = _
    rw [hver]
    rfl
  · rfl
  · rw [hver]
    rfl

/-- Witness for C1 at the worked example of the spec. -/
theorem on_value_change_spec_w :
    (on_value_change exClient exDevice exChanges).queue =
      exClient.queue ++
        [jsonDumps (specValueChangeEnvelope exDevice.vendor exDevice.model exDevice.sn exChanges)] ∧
    Json.lookup (on_value_change_data exClient.ipcd_version exDevice exChanges) "events" =
      some (.arr [.str "onValueChanges"]) ∧
    on_value_change_data exClient.ipcd_version exDevice exChanges = exEnvelope :=
  on_value_change_spec exClient rfl exDevice exChanges

/-- C7: for every client with protocol version `"1.0"` and every device,
`report(device, payload)` builds exactly the spec envelope
`{"device": {"ipcdver": "1.0", vendor, model, sn}, "report": payload}`,
serializes it and appends it to the outbound queue; the operation is a
total function on the client state (it never fails). -/
theorem report_spec (c : Client) (hver : c.ipcd_version = IPCD_VERSION)
    (d : Device) (payload : Json) :
    (report c d payload).queue =
      c.queue ++ [jsonDumps (specReportEnvelope d.vendor d.model d.sn payload)] ∧
    report_data c.ipcd_version d payload =
      specReportEnvelope d.vendor d.model d.sn payload := by
  refine ⟨?_, ?_⟩
  · show c.queue ++ [jsonDumps (report_data c.ipcd_version d payload)] = _
    rw [hver]
    rfl
  · rw [hver]
    rfl

/-- Witness for C7 at a concrete client, device and payload. -/
theorem report_spec_w :
    (report exClient exDevice exReport).queue =
      exClient.queue ++
        [jsonDumps (specReportEnvelope exDevice.vendor exDevice.model exDevice.sn exReport)] ∧
    report_data exClient.ipcd_version exDevice exReport =
      specReportEnvelope exDevice.vendor exDevice.model exDevice.sn exReport :=
  report_spec exClient rfl exDevice exReport

/-- C2: on entering the active connection, the session sends exactly one
registration envelope `{"device": identity, "events": ["onBoot",
"onConnect"]}` per registered device — the handshake has one message per
device, the message at position `i` is the serialized registration envelope
of the device at position `i` of the registry — each send awaited before
any other traffic flows (the whole handshake is the prefix of the socket
output, the writer output only follows it), and with an empty registry no
handshake message is sent. -/
theorem registration_handshake_spec (c : Client) :
    (registration_handshake c).length = c.devices.length ∧
    (∀ i : Nat, (registration_handshake c)[i]? =
      (c.devices[i]?).map (fun d => jsonDumps (registration_data c.ipcd_version d))) ∧
    (connect_outbound c).take c.devices.length = registration_handshake c ∧
    (connect_outbound c).drop c.devices.length = writerRun c.queue ∧
    registration_handshake { c with devices := [] } = [] := by
  have hlen : (registration_handshake c).length = c.devices.length :=
    List.length_map _ _
  refine ⟨hlen, ?_, ?_, ?_, rfl⟩
  · intro i
    exact List.getElem?_map _ _ i
  · rw [connect_outbound, ← hlen]
    exact List.take_left _ _
  · rw [connect_outbound, ← hlen]
    exact List.drop_left _ _

/-- C3: for every sequence of `on_value_change` and `report` calls made
before the writer drains the queue, the queue holds exactly the serialized
envelopes in call order, and the writer loop (the sole consumer of the
queue in the source) writes them to the socket in exactly that FIFO
order. -/
theorem outbound_fifo (c : Client) (ops : List QueueOp) :
    (applyOps c ops).queue = c.queue ++ ops.map (opMessage c.ipcd_version) ∧
    writerRun (applyOps c ops).queue = c.queue ++ ops.map (opMessage c.ipcd_version) := by
  have h := applyOps_queue ops c
  exact ⟨h, by rw [writerRun_eq, h]⟩

/-- C4: a malformed inbound payload — one on which the command decode
fails — does not terminate the session: its error is confined to the
spawned dispatch task (whose outcome the event loop logs), the reader loop
keeps running, and every later message, in particular the next valid one,
is still dispatched. -/
theorem reader_survives_malformed (d : Device) (ds : List Device) (m : Json)
    (e : String) (hm : from_payload m = .error e) (ms : List Json) :
    Device.on_message d m = .error e ∧
    readerRun (d :: ds) (m :: ms) =
      some (.error e :: ms.map (fun n => Device.on_message d n)) := by
  have h1 : Device.on_message d m = .error e := by
    rw [Device.on_message, hm]
  refine ⟨h1, ?_⟩
  rw [readerRun, readerStep, readerRun_cons_eq d ds ms]
  rw [h1]
  rfl

/-- Witness for C4: a payload without discriminator fails decoding but the
reader still processes the following valid message. -/
theorem reader_survives_malformed_w :
    from_payload badMsg = .error "MalformedCommand" ∧
    readerRun [exDevice] [badMsg, goodMsg] =
      some (.error "MalformedCommand" ::
        [goodMsg].map (fun n => Device.on_message exDevice n)) ∧
    Device.on_message exDevice goodMsg = .ok () :=
  ⟨rfl, (reader_survives_malformed exDevice [] badMsg "MalformedCommand" rfl [goodMsg]).2,
    rfl⟩

/-- C5 (code bug): `Device.__init__` assigns `self.ipcd_version` only when
the argument is falsy. Supplying an explicit protocol version `"2.0"`
leaves the attribute unassigned, and `to_obj` then raises `AttributeError`
instead of reporting `"2.0"` as `ipcdver`; the default path (no version
supplied) does work as claimed. -/
theorem device_init_version_bug :
    (Device.init "Acme" "X1" "123" (some "2.0")).ipcd_version = none ∧
    Device.to_obj (Device.init "Acme" "X1" "123" (some "2.0")) =
      .error "AttributeError: ipcd_version" ∧
    (Device.init "Acme" "X1" "123" none).ipcd_version = some IPCD_VERSION ∧
    Device.to_obj (Device.init "Acme" "X1" "123" none) = .ok (.obj
      [("ipcdver", .str "1.0"), ("vendor", .str "Acme"),
       ("model", .str "X1"), ("sn", .str "123")]) :=
  ⟨rfl, rfl, rfl, rfl⟩

/-- C6: constructing a client with an empty hostname fails synchronously
with the configuration error `ValueError("hostname must be set")`, before
anything else of the client exists; for every non-empty hostname the
construction succeeds and stores the hostname unchanged, with protocol
version `"1.0"`, an empty registry and an empty queue. -/
theorem clientInit_hostname :
    clientInit "" = .error "hostname must be set" ∧
    ∀ h : String, h ≠ "" →
      clientInit h = .ok
        { hostname := h, ipcd_version := IPCD_VERSION, devices := [], queue := [] } := by
  refine ⟨rfl, ?_⟩
  intro h hne
  rw [clientInit, _validate_hostname, if_neg hne]

/-- Witness for C6 at the example hostname of the spec. -/
theorem clientInit_hostname_w :
    ("wss://example.test" : String) ≠ "" ∧
    clientInit "wss://example.test" = .ok
      { hostname := "wss://example.test", ipcd_version := IPCD_VERSION,
        devices := [], queue := [] } :=
  ⟨by decide, clientInit_hostname.2 "wss://example.test" (by decide)⟩

/-- C8: every inbound message of an active session is dispatched to the
first registered device, whatever the message content (any addressing
fields included) and whatever the rest of the registry; the dispatch is an
independent unit of work — its outcome is collected per message and the
loop reads and dispatches all later messages regardless of it. -/
theorem reader_routes_to_first (d : Device) (ds : List Device) (msgs : List Json) :
    (∀ m : Json, readerStep (d :: ds) m = some (Device.on_message d m)) ∧
    readerRun (d :: ds) msgs = some (msgs.map (fun m => Device.on_message d m)) :=
  ⟨fun _ => rfl, readerRun_cons_eq d ds msgs⟩

/-- C9: `add_device` appends unconditionally: the registry grows by exactly
one, all previously registered devices are unchanged in place and order,
the appended entry is the given device with its back-reference set to the
session and its identity fields untouched, and appending the same device a
second time (a duplicate identity) still grows the registry. -/
theorem add_device_appends (c : Client) (d : Device) :
    (add_device c d).devices.length = c.devices.length + 1 ∧
    (add_device c d).devices.take c.devices.length = c.devices ∧
    (add_device c d).devices.getLast? = some (Device._set_client d (clientRef c)) ∧
    (Device._set_client d (clientRef c))._client = some (clientRef c) ∧
    (Device._set_client d (clientRef c)).vendor = d.vendor ∧
    (Device._set_client d (clientRef c)).model = d.model ∧
    (Device._set_client d (clientRef c)).sn = d.sn ∧
    (add_device (add_device c d) d).devices.length = c.devices.length + 2 := by
  refine ⟨?_, ?_, ?_, rfl, rfl, rfl, rfl, ?_⟩
  · simp [add_device]
  · exact List.take_left _ _
  · simp [add_device]
  · simp [add_device]

/-- C10: dispatching any inbound message requires a non-empty registry:
with zero registered devices, `devices[0]` in the reader loop is an
out-of-bounds access, so the arrival of any message makes the dispatch
step fail and terminates the reader abnormally instead of ignoring the
message or routing it elsewhere. -/
theorem reader_empty_registry (m : Json) (ms : List Json) :
    readerStep [] m = none ∧ readerRun [] (m :: ms) = none :=
  ⟨rfl, rfl⟩

end Ipcd
